/-
Verification of the Chronos weather-adaptive activity planner
(`models.py`, `utils.py`, `tools.py`, `agent.py`) against its
natural-language specification.

The Python source is shallowly embedded: dataclass / pydantic models become
Lean structures, pure functions become Lean functions, the process-global
weather cache and the global `random` module state are threaded explicitly,
and the external collaborators (the generative model call and the live
weather API) are parameters describing their observable behaviour.
Python floats are modelled as rationals, Python ints as naturals where the
source guarantees non-negativity.
-/
import Mathlib

namespace Chronos

/-! ## String helpers

Python's `in` substring test, `str.lower`, `str.title` and the list `repr`
used inside f-strings, modelled over `String.data`. -/

/-- Auxiliary substring scan: does `needle` occur in the haystack? -/
def containsSubAux (needle : List Char) : List Char → Bool
  | [] => needle.isEmpty
  | c :: rest => needle.isPrefixOf (c :: rest) || containsSubAux needle rest

/-- Python `needle in haystack` on strings. -/
def containsSub (needle haystack : String) : Bool :=
  containsSubAux needle.data haystack.data

/-- Python `str.lower()` (sources only use ASCII). -/
def strToLower (s : String) : String :=
  String.mk (s.data.map Char.toLower)

/-- Python `str.strip()`: drop leading and trailing whitespace. -/
def pyStrip (s : String) : String :=
  String.mk (((s.data.dropWhile Char.isWhitespace).reverse.dropWhile Char.isWhitespace).reverse)

/-- Helper for `strTitle`: uppercase the first letter of each alpha run. -/
def titleAux : List Char → Bool → List Char
  | [], _ => []
  | c :: rest, prevAlpha =>
    (if c.isAlpha then (if prevAlpha then c.toLower else c.toUpper) else c)
      :: titleAux rest c.isAlpha

/-- Python `str.title()`. -/
def strTitle (s : String) : String :=
  String.mk (titleAux s.data false)

/-- A single-quote character as a string (used by `pyListRepr`). -/
def quoteChar : String :=
  String.mk [Char.ofNat 39]

/-- Python `repr` of a list of strings, as rendered inside an f-string. -/
def pyListRepr (l : List String) : String :=
  "[" ++ String.intercalate ", " (l.map fun s => quoteChar ++ s ++ quoteChar) ++ "]"

/-- Decimal rendering of a rational, modelling Python float formatting in
f-strings (the exact text is irrelevant to every claim, only determinism). -/
def ratToString (q : ℚ) : String :=
  toString q.num ++ (if q.den = 1 then "" else "/" ++ toString q.den)

/-- Python `round(x, 1)`: round to one decimal place.  Written directly on
the numerator/denominator (rounding half away from zero on positives;
Python uses banker's rounding on exact halves — no claim depends on the
tie-breaking). -/
def round1 (q : ℚ) : ℚ :=
  mkRat (Int.fdiv (20 * q.num + q.den) (2 * q.den)) 10

/-! ## Data model (`models.py`) -/

/-- `models.RiskLevel`. -/
inductive RiskLevel where
  | LOW
  | MEDIUM
  | HIGH
  | CRITICAL
deriving DecidableEq, BEq, Repr

/-- The `str` value of a `RiskLevel` member (`RiskLevel.value` in Python). -/
def RiskLevel.value : RiskLevel → String
  | .LOW => "low"
  | .MEDIUM => "medium"
  | .HIGH => "high"
  | .CRITICAL => "critical"

/-- Severity index realising the LOW < MEDIUM < HIGH < CRITICAL order. -/
def riskIdx : RiskLevel → Nat
  | .LOW => 0
  | .MEDIUM => 1
  | .HIGH => 2
  | .CRITICAL => 3

/-- `models.WeatherCondition`. -/
structure WeatherCondition where
  temperature_celsius : ℚ
  condition : String
  precipitation_chance : ℕ
  wind_speed_kmh : ℚ
  humidity_percent : ℕ
  forecast_date : String
  location : String
  is_simulated : Bool := false
deriving DecidableEq, Repr

/-- `models.TaskStep`. -/
structure TaskStep where
  order : ℕ
  description : String
  time_from : Option String := none
  time_to : Option String := none
  location : Option String := none
  weather_sensitive : Bool := false
  risk_note : Option String := none
deriving DecidableEq, Repr

/-- `models.PlanOption`. -/
structure PlanOption where
  name : String
  summary : String
  steps : List TaskStep
  overall_risk : RiskLevel
  risk_explanation : String
  recommended : Bool := false
deriving DecidableEq, Repr

/-- `models.DecisionPoint`. -/
structure DecisionPoint where
  decision : String
  reasoning : String
  data_used : Option String := none
deriving DecidableEq, Repr

/-- `models.TaskFeasibility`. -/
structure TaskFeasibility where
  feasible : Bool
  reason : String
  suggestion : Option String := none
deriving DecidableEq, Repr

/-- `models.WeatherRelevance`. -/
structure WeatherRelevance where
  is_relevant : Bool
  confidence : ℚ
  explanation : String
  outdoor_activities : List String := []
deriving DecidableEq, Repr

/-- `models.ChronosResponse`. -/
structure ChronosResponse where
  original_request : String
  extracted_location : Option String := none
  start_date : Option String := none
  end_date : Option String := none
  location_used : Option String := none
  location_confidence : ℚ := 1
  task_feasibility : TaskFeasibility
  weather_relevance : Option WeatherRelevance := none
  weather_data : Option WeatherCondition := none
  plan_a : Option PlanOption := none
  plan_b : Option PlanOption := none
  decision_trace : List DecisionPoint := []
  generated_at : String := ""
  agent_confidence : ℚ
deriving DecidableEq, Repr

/-- `models.AgentError`. -/
structure AgentError where
  error_type : String
  message : String
  fallback_available : Bool := true
  suggestion : String
deriving DecidableEq, Repr

/-! ## Risk scoring (`utils.calculate_weather_risk`) -/

/-- The severe-condition keyword list from `utils.calculate_weather_risk`. -/
def severe_keywords : List String :=
  ["thunderstorm", "storm", "heavy rain", "hail", "severe"]

/-- `utils.calculate_weather_risk`, with the source's sequential `score`
accumulation. -/
def calculate_weather_risk (weather : WeatherCondition) : RiskLevel :=
  let score : ℕ := 0
  let score := score +
    (if weather.precipitation_chance ≥ 80 then 40
     else if weather.precipitation_chance ≥ 60 then 30
     else if weather.precipitation_chance ≥ 40 then 20
     else if weather.precipitation_chance ≥ 20 then 10
     else 0)
  let score := score +
    (if weather.wind_speed_kmh ≥ 40 then 20
     else if weather.wind_speed_kmh ≥ 25 then 10
     else if weather.wind_speed_kmh ≥ 15 then 5
     else 0)
  let score := score +
    (if severe_keywords.any (fun kw => containsSub kw (strToLower weather.condition)) then 40
     else if containsSub "rain" (strToLower weather.condition) then 15
     else if containsSub "snow" (strToLower weather.condition) then 20
     else 0)
  if score ≥ 60 then RiskLevel.CRITICAL
  else if score ≥ 40 then RiskLevel.HIGH
  else if score ≥ 20 then RiskLevel.MEDIUM
  else RiskLevel.LOW

/-- Reference precipitation points, following the spec's additive table. -/
def precipPointsSpec (p : ℕ) : ℕ :=
  if p ≥ 80 then 40 else if p ≥ 60 then 30 else if p ≥ 40 then 20
  else if p ≥ 20 then 10 else 0

/-- Reference wind points, following the spec's additive table. -/
def windPointsSpec (w : ℚ) : ℕ :=
  if w ≥ 40 then 20 else if w ≥ 25 then 10 else if w ≥ 15 then 5 else 0

/-- Reference condition-keyword points, following the spec's table. -/
def condPointsSpec (c : String) : ℕ :=
  if severe_keywords.any (fun kw => containsSub kw (strToLower c)) then 40
  else if containsSub "rain" (strToLower c) then 15
  else if containsSub "snow" (strToLower c) then 20
  else 0

/-- Reference mapping from total score to `RiskLevel`, per the spec. -/
def riskOfScoreSpec (s : ℕ) : RiskLevel :=
  if s ≥ 60 then .CRITICAL else if s ≥ 40 then .HIGH
  else if s ≥ 20 then .MEDIUM else .LOW

/-- The reference scoring of the spec, written as the sum of the three
independent factor scores (this is the spec-side definition for C7). -/
def calculate_weather_risk_spec (w : WeatherCondition) : RiskLevel :=
  riskOfScoreSpec
    (precipPointsSpec w.precipitation_chance + windPointsSpec w.wind_speed_kmh
      + condPointsSpec w.condition)

/-! ## Text formatting helpers (`utils.py`) -/

/-- `utils.format_weather_summary`. -/
def format_weather_summary (weather : WeatherCondition) : String :=
  strTitle weather.condition ++ ", " ++ ratToString weather.temperature_celsius ++ "°C, "
    ++ toString weather.precipitation_chance ++ "% chance of rain, "
    ++ "wind " ++ ratToString weather.wind_speed_kmh ++ " km/h"

/-- `utils.format_risk_explanation`. -/
def format_risk_explanation (risk : RiskLevel) (weather : WeatherCondition) : String :=
  let explanations : List String :=
    (if weather.precipitation_chance ≥ 50 then
      ["High precipitation chance (" ++ toString weather.precipitation_chance ++ "%)"]
     else [])
    ++ (if weather.wind_speed_kmh ≥ 25 then
      ["Strong winds (" ++ ratToString weather.wind_speed_kmh ++ " km/h)"]
     else [])
    ++ (if containsSub "rain" (strToLower weather.condition)
          || containsSub "storm" (strToLower weather.condition) then
      ["Unfavorable conditions (" ++ weather.condition ++ ")"]
     else [])
  if explanations.isEmpty then
    if risk = RiskLevel.LOW then
      "Weather conditions are favorable for outdoor activities."
    else
      "Minor weather concerns that shouldn\x27t significantly impact plans."
  else
    String.intercalate " | " explanations

/-! ## Activity classification (`utils.py`) -/

/-- `utils.OUTDOOR_ACTIVITIES`, in source-literal order (Python iterates the
set in an unspecified order; no claim depends on list order). -/
def OUTDOOR_ACTIVITIES : List String :=
  ["picnic", "hiking", "hike", "camping", "camp", "beach", "swimming", "swim",
   "bbq", "barbecue", "garden", "gardening", "cycling", "bike", "biking",
   "running", "run", "jogging", "jog", "walking", "walk", "fishing", "fish",
   "golf", "tennis", "soccer", "football", "baseball", "park", "outdoor",
   "festival", "concert", "fair", "market", "parade", "wedding", "ceremony",
   "photography", "photoshoot", "zoo", "amusement park", "theme park",
   "kayaking", "surfing", "sailing", "boating", "climbing", "skiing"]

/-- `utils.INDOOR_ACTIVITIES`, in source-literal order. -/
def INDOOR_ACTIVITIES : List String :=
  ["meeting", "movie", "cinema", "theater", "theatre", "museum", "shopping",
   "dinner", "lunch", "restaurant", "cafe", "coffee", "gym", "workout",
   "office", "work", "study", "library", "class", "lecture", "presentation",
   "interview", "doctor", "dentist", "appointment", "spa", "massage",
   "bowling", "arcade", "escape room", "concert hall", "opera"]

/-- `utils.classify_activity_weather_sensitivity`. -/
def classify_activity_weather_sensitivity (text : String) : Bool × List String :=
  let text_lower := strToLower text
  let found_outdoor := OUTDOOR_ACTIVITIES.filter (fun a => containsSub a text_lower)
  let found_indoor := INDOOR_ACTIVITIES.filter (fun a => containsSub a text_lower)
  if !found_outdoor.isEmpty && found_outdoor.length ≥ found_indoor.length then
    (true, found_outdoor)
  else if containsSub "outdoor" text_lower || containsSub "outside" text_lower then
    (true, ["outdoor activity"])
  else if found_indoor.isEmpty && found_outdoor.isEmpty then
    (true, [])
  else
    (!found_outdoor.isEmpty, found_outdoor)

/-! ## Date parsing (`utils.parse_relative_date`)

Calendar dates are modelled as day numbers with day 0 a Monday, so
`d % 7` is exactly Python's `datetime.weekday()` (Monday = 0 … Sunday = 6)
and `+ timedelta(days=k)` is `+ k`. -/

/-- The result of `parse_relative_date`: either a computed calendar day
(the source formats it with `strftime`), or the literal `YYYY-MM-DD` text
matched by the explicit-date regex. -/
inductive ParsedDate where
  | onDay (d : ℕ)
  | literal (s : String)
deriving DecidableEq, Repr

/-- The `day_names` dict of `utils.parse_relative_date`, in insertion
order (Python dict iteration order). -/
def day_names : List (String × ℕ) :=
  [("monday", 0), ("tuesday", 1), ("wednesday", 2), ("thursday", 3),
   ("friday", 4), ("saturday", 5), ("sunday", 6)]

/-- The day-name loop of `utils.parse_relative_date`: first day name found
in the lowered text wins; a zero offset is pushed a week forward. -/
def find_day_name (text_lower : String) (today : ℕ) : Option ℕ :=
  day_names.findSome? fun dn =>
    if containsSub dn.1 text_lower then
      let days_ahead := (dn.2 + 7 - today % 7) % 7
      let days_ahead := if days_ahead = 0 then 7 else days_ahead
      some (today + days_ahead)
    else none

/-- Does this character sequence start with a `\d{4}-\d{2}-\d{2}` match? -/
def isIsoDateAt : List Char → Bool
  | c1 :: c2 :: c3 :: c4 :: h1 :: c5 :: c6 :: h2 :: c7 :: c8 :: _ =>
    c1.isDigit && c2.isDigit && c3.isDigit && c4.isDigit && h1 == '-'
      && c5.isDigit && c6.isDigit && h2 == '-' && c7.isDigit && c8.isDigit
  | _ => false

/-- Leftmost match of the regex `(\d{4}-\d{2}-\d{2})`, as in `re.search`. -/
def find_iso_date_aux : List Char → Option String
  | [] => none
  | c :: rest =>
    if isIsoDateAt (c :: rest) then some (String.mk ((c :: rest).take 10))
    else find_iso_date_aux rest

/-- `re.search(r'(\d{4}-\d{2}-\d{2})', text)`, returning the matched group. -/
def find_iso_date (text : String) : Option String :=
  find_iso_date_aux text.data

/-- The `planning_keywords` list of `utils.parse_relative_date`. -/
def planning_keywords : List String :=
  ["plan", "schedule", "organize", "arrange"]

/-- `utils.parse_relative_date`, with `today` passed explicitly in place of
`datetime.now()`.  Note the weekend branch: `days_until_saturday` is zero
exactly when today is Saturday, so the guard
`days_until_saturday == 0 and today.weekday() != 5` can never hold and the
roll-forward to the following Saturday is dead code. -/
def parse_relative_date (text : String) (today : ℕ) : Option ParsedDate :=
  let text_lower := strToLower text
  if containsSub "today" text_lower then
    some (.onDay today)
  else if containsSub "tomorrow" text_lower then
    some (.onDay (today + 1))
  else if containsSub "this weekend" text_lower || containsSub "weekend" text_lower then
    let days_until_saturday := (5 + 7 - today % 7) % 7
    let days_until_saturday :=
      if days_until_saturday = 0 ∧ today % 7 ≠ 5 then 7 else days_until_saturday
    some (.onDay (today + days_until_saturday))
  else if containsSub "next week" text_lower then
    let days_until_monday := (7 - today % 7) % 7
    let days_until_monday := if days_until_monday = 0 then 7 else days_until_monday
    some (.onDay (today + days_until_monday))
  else
    match find_day_name text_lower today with
    | some d => some (.onDay d)
    | none =>
      match find_iso_date text with
      | some s => some (.literal s)
      | none =>
        if planning_keywords.any (fun kw => containsSub kw text_lower) then
          some (.onDay (today + 1))
        else
          none

/-! ## Weather source (`tools.py`)

The process-global `random` module is modelled as an explicit state of type
`ℕ` together with an interface describing its primitives: `random.seed`
replaces the state with a function of the seed alone, and every drawing
primitive is a pure function of the current state.  Each primitive also
receives the call's arguments so an implementation may respect the Python
ranges, but no claim depends on that. -/

/-- Interface to Python's `random` module: state-passing versions of
`seed`, the index drawn by `choices`, `uniform` and `randint`. -/
structure PyRandom where
  seedState : ℕ → ℕ
  choicesIdx : ℕ → ℕ × ℕ
  uniform : ℚ → ℚ → ℕ → ℚ × ℕ
  randint : ℕ → ℕ → ℕ → ℕ × ℕ

/-- The `conditions` list of `tools.generate_simulated_weather`. -/
def simulated_conditions : List String :=
  ["sunny", "partly cloudy", "cloudy", "light rain", "rainy", "thunderstorms"]

/-- `tools.generate_simulated_weather`.  `hashF` models the process-fixed
`hash` on strings, `s0` the incoming global `random` state (overwritten by
`random.seed` before any draw).  Python's dict literal `precip_map`
evaluates `random.randint` for all six keys before indexing, so all six
draws are threaded in order.  Returns the observation and the final
`random` state. -/
def generate_simulated_weather (rng : PyRandom) (hashF : String → ℕ)
    (location date : String) (s0 : ℕ) : WeatherCondition × ℕ :=
  let seed_value := hashF (strToLower location ++ "_" ++ date) % 10000
  let s := rng.seedState seed_value
  let (ci, s) := rng.choicesIdx s
  let condition := simulated_conditions.getD (ci % 6) "sunny"
  let (base_temp, s) := rng.uniform 15 28 s
  let (base_temp, s) :=
    if containsSub "rain" condition || condition == "thunderstorms" then
      let (d, s) := rng.uniform 3 8 s
      (base_temp - d, s)
    else (base_temp, s)
  let (p_sunny, s) := rng.randint 0 10 s
  let (p_partly, s) := rng.randint 5 25 s
  let (p_cloudy, s) := rng.randint 15 40 s
  let (p_light_rain, s) := rng.randint 50 70 s
  let (p_rainy, s) := rng.randint 70 90 s
  let (p_thunder, s) := rng.randint 80 100 s
  let precip :=
    if condition == "sunny" then p_sunny
    else if condition == "partly cloudy" then p_partly
    else if condition == "cloudy" then p_cloudy
    else if condition == "light rain" then p_light_rain
    else if condition == "rainy" then p_rainy
    else p_thunder
  let (wind, s) := rng.uniform 5 25 s
  let (humidity, s) := rng.randint 40 85 s
  ({ temperature_celsius := round1 base_temp
     condition := condition
     precipitation_chance := precip
     wind_speed_kmh := round1 wind
     humidity_percent := humidity
     forecast_date := date
     location := location
     is_simulated := true }, s)

/-- The module-level `_weather_cache` dict of `tools.py`: keys are
`(lowercased location, date)`, values carry the stored observation and the
`datetime.now()` timestamp of the store (in minutes, as a rational). -/
abbrev WeatherCache := List ((String × String) × (WeatherCondition × ℚ))

/-- `tools.CACHE_TTL_MINUTES`. -/
def CACHE_TTL_MINUTES : ℚ := 30

/-- `tools._is_cache_valid`, with `now` passed explicitly. -/
def _is_cache_valid (now cache_time : ℚ) : Bool :=
  now - cache_time < CACHE_TTL_MINUTES

/-- `tools._get_cached_weather`: a fresh hit is returned, an expired entry
is evicted.  Returns the lookup result and the possibly-updated cache. -/
def _get_cached_weather (cache : WeatherCache) (now : ℚ) (location date : String) :
    Option WeatherCondition × WeatherCache :=
  let key := (strToLower location, date)
  match cache.find? (fun e => e.1 == key) with
  | some e =>
    if _is_cache_valid now e.2.2 then (some e.2.1, cache)
    else (none, cache.filter (fun e => !(e.1 == key)))
  | none => (none, cache)

/-- `tools._store_cached_weather` (Python dict assignment: the key's previous
entry, if any, is replaced). -/
def _store_cached_weather (cache : WeatherCache) (now : ℚ) (location date : String)
    (weather : WeatherCondition) : WeatherCache :=
  let key := (strToLower location, date)
  (key, (weather, now)) :: cache.filter (fun e => !(e.1 == key))

/-- `tools.get_weather`.  `api_result` is the observable outcome of
`fetch_weather_from_api`, whose body wraps everything in
`try/except: return None`, so every live-source behaviour (success,
timeout, malformed payload, missing fields) appears here as
`some w` or `none`.  Returns the observation, the updated cache and the
final `random` state. -/
def get_weather (rng : PyRandom) (hashF : String → ℕ)
    (api_result : Option WeatherCondition) (now : ℚ) (cache : WeatherCache)
    (rs : ℕ) (location date : String) (use_simulation : Bool) :
    WeatherCondition × WeatherCache × ℕ :=
  match _get_cached_weather cache now location date with
  | (some cached, cache) => (cached, cache, rs)
  | (none, cache) =>
    let wr :=
      if use_simulation then
        generate_simulated_weather rng hashF location date rs
      else
        match api_result with
        | some w => (w, rs)
        | none =>
          let g := generate_simulated_weather rng hashF location date rs
          ({ g.1 with is_simulated := true }, g.2)
    (wr.1, _store_cached_weather cache now location date wr.1, wr.2)

/-! ## Schema validation (`agent.parse_agent_response`)

`parse_agent_response` strips optional Markdown fencing, runs `json.loads`
and then `ChronosResponse.model_validate`.  Pydantic validation of the
models in `models.py` checks field types and the declared `Field`
constraints (`ge`/`le` bounds) and nothing more: there is no validator
relating `time_from` to `time_to`, none comparing timestamps to the date
range, and none relating `task_feasibility.feasible` to the plans.  The
typed payload below stands for an arbitrary JSON object of the right
shape; shape errors and `json.loads` failures are covered by the
`raises` arm of `CollabBehaviour`. -/

/-- Pydantic field constraints of `models.TaskStep` (`order: int = Field(ge=1)`;
no other field carries a constraint). -/
def validTaskStep (s : TaskStep) : Bool :=
  1 ≤ s.order

/-- Pydantic field constraints of `models.PlanOption`. -/
def validPlanOption (p : PlanOption) : Bool :=
  p.steps.all validTaskStep

/-- Pydantic field constraints of `models.WeatherCondition`. -/
def validWeatherCondition (w : WeatherCondition) : Bool :=
  w.precipitation_chance ≤ 100 && 0 ≤ w.wind_speed_kmh && w.humidity_percent ≤ 100

/-- Pydantic field constraints of `models.WeatherRelevance`. -/
def validWeatherRelevance (r : WeatherRelevance) : Bool :=
  0 ≤ r.confidence && r.confidence ≤ 1

/-- Pydantic validation of `models.ChronosResponse`
(`ChronosResponse.model_validate` on an already-shaped payload). -/
def validChronosResponse (r : ChronosResponse) : Bool :=
  0 ≤ r.location_confidence && r.location_confidence ≤ 1
    && (match r.weather_relevance with
        | some wr => validWeatherRelevance wr
        | none => true)
    && (match r.weather_data with
        | some w => validWeatherCondition w
        | none => true)
    && (match r.plan_a with
        | some p => validPlanOption p
        | none => true)
    && (match r.plan_b with
        | some p => validPlanOption p
        | none => true)
    && 0 ≤ r.agent_confidence && r.agent_confidence ≤ 1

/-- The message text of a pydantic `ValidationError` (its content never
matters to the orchestrator). -/
def pydantic_error_message : String := "validation error"

/-- `agent.parse_agent_response` restricted to its validation stage:
`Except.error` models the raised `ValidationError`. -/
def model_validate (r : ChronosResponse) : Except String ChronosResponse :=
  if validChronosResponse r then .ok r else .error pydantic_error_message

/-! ## The orchestrator (`agent.run_chronos`)

The generative collaborator (`chronos_agent.run` plus `json.loads`) is
abstracted by its observable behaviour: it either raises some exception
(any exception type/message — covering transport errors, timeouts and
unparseable JSON alike) or yields a payload shaped like the response
schema, which is then validated.  The weather API behaviour, the clock,
the cache and the `random` state are threaded as in `tools.py`. -/

/-- Behaviour of the generative collaborator call as observed by
`run_chronos`: an exception carrying Python's `type(e).__name__` and
`str(e)`, or a schema-shaped payload to be validated. -/
inductive CollabBehaviour where
  | raises (ename emsg : String)
  | payload (p : ChronosResponse)
deriving DecidableEq, Repr

/-- Step 2 of `agent.run_chronos`: the `WeatherRelevance` the pipeline
computes from `classify_activity_weather_sensitivity`. -/
def chronos_weather_relevance (user_request : String) : WeatherRelevance :=
  let c := classify_activity_weather_sensitivity user_request
  { is_relevant := c.1
    confidence := if c.2.isEmpty then mkRat 7 10 else mkRat 9 10
    explanation :=
      if c.2.isEmpty then
        "No specific outdoor activities identified, but weather may still be relevant"
      else
        "Identified outdoor activities: " ++ String.intercalate ", " c.2
    outdoor_activities := c.2 }

/-- Step 3 of `agent.run_chronos`: the conditional weather fetch
(`weather_data`, updated cache, updated `random` state). -/
def chronos_weather_step (rng : PyRandom) (hashF : String → ℕ)
    (api_result : Option WeatherCondition) (now : ℚ) (cache : WeatherCache)
    (rs : ℕ) (user_request location start_date : String)
    (simulation_mode : Bool) : Option WeatherCondition × WeatherCache × ℕ :=
  let c := classify_activity_weather_sensitivity user_request
  if c.1 then
    let g := get_weather rng hashF api_result now cache rs location start_date simulation_mode
    (some g.1, g.2.1, g.2.2)
  else
    (none, cache, rs)

/-- Step 3 of `agent.run_chronos`: the pipeline's own `decision_trace`
(exactly one record, for the fetch or for the skip). -/
def chronos_pipeline_trace (rng : PyRandom) (hashF : String → ℕ)
    (api_result : Option WeatherCondition) (now : ℚ) (cache : WeatherCache)
    (rs : ℕ) (user_request location start_date : String)
    (simulation_mode : Bool) : List DecisionPoint :=
  let c := classify_activity_weather_sensitivity user_request
  if c.1 then
    let g := get_weather rng hashF api_result now cache rs location start_date simulation_mode
    [{ decision := "Fetched weather data"
       reasoning := "Weather is relevant for outdoor activities: " ++ pyListRepr c.2
       data_used := some (format_weather_summary g.1) }]
  else
    [{ decision := "Skipped weather lookup"
       reasoning := "Activity appears to be primarily indoor or weather-independent"
       data_used := none }]

/-- `agent.run_chronos`.  The whole body sits inside one `try/except`, so
the function is total over every collaborator and weather-source behaviour
and returns either a `ChronosResponse` or an `AgentError` (plus the cache
it leaves behind) — it can never propagate an exception. -/
def run_chronos (rng : PyRandom) (hashF : String → ℕ)
    (api_result : Option WeatherCondition) (now : ℚ) (cache : WeatherCache)
    (rs : ℕ) (collab : CollabBehaviour)
    (user_request location start_date end_date : String)
    (simulation_mode : Bool) : (ChronosResponse ⊕ AgentError) × WeatherCache :=
  let location := pyStrip location
  let weather_relevance := chronos_weather_relevance user_request
  let ws :=
    chronos_weather_step rng hashF api_result now cache rs
      user_request location start_date simulation_mode
  let weather_data := ws.1
  let cache2 := ws.2.1
  let decision_trace :=
    chronos_pipeline_trace rng hashF api_result now cache rs
      user_request location start_date simulation_mode
  match collab with
  | .raises ename emsg =>
    (.inr { error_type := ename
            message := emsg
            fallback_available := true
            suggestion := "Try simplifying your request or check your API configuration." },
     cache2)
  | .payload p =>
    match model_validate p with
    | .ok response =>
      (.inl { response with
          extracted_location := some location
          start_date := some start_date
          end_date := some end_date
          weather_relevance := some weather_relevance
          weather_data := weather_data
          decision_trace := decision_trace ++ response.decision_trace
          location_used := some location
          location_confidence := 1 },
       cache2)
    | .error emsg =>
      (.inr { error_type := "ValidationError"
              message := emsg
              fallback_available := true
              suggestion := "Try simplifying your request or check your API configuration." },
       cache2)

/-! ## Fallback planner (`agent.generate_fallback_response`) -/

/-- The `risk_level` computed at the top of
`agent.generate_fallback_response` (`MEDIUM` when no observation is
available). -/
def fallback_risk (weather_data : Option WeatherCondition) : RiskLevel :=
  match weather_data with
  | some w => calculate_weather_risk w
  | none => RiskLevel.MEDIUM

/-- `agent.generate_fallback_response`.  `gen_time` stands for the
`datetime.now().isoformat()` default of `generated_at`. -/
def generate_fallback_response (user_request location date : String)
    (weather_data : Option WeatherCondition) (gen_time : String) : ChronosResponse :=
  let risk_level := fallback_risk weather_data
  let weather_relevance : WeatherRelevance :=
    { is_relevant := true
      confidence := mkRat 1 2
      explanation := "Fallback mode - assuming weather may be relevant"
      outdoor_activities := [] }
  let plan_a : PlanOption :=
    { name := "Original Plan"
      summary := "Proceed with your plan as requested"
      steps := [
        { order := 1
          description := "Proceed with: " ++ user_request
          time_from := some (date ++ "T09:00")
          time_to := some (date ++ "T17:00")
          weather_sensitive := true
          risk_note := some ("Weather risk: " ++ risk_level.value) }]
      overall_risk := risk_level
      risk_explanation :=
        match weather_data with
        | some w => format_risk_explanation risk_level w
        | none => "Weather data unavailable"
      recommended := risk_level == RiskLevel.LOW }
  let plan_b : PlanOption :=
    { name := "Weather-Conscious Alternative"
      summary := "Consider weather conditions when proceeding"
      steps := [
        { order := 1
          description := "Check weather before leaving"
          time_from := some (date ++ "T08:00")
          time_to := some (date ++ "T08:30")
          weather_sensitive := false },
        { order := 2
          description := "Proceed with: " ++ user_request
          time_from := some (date ++ "T09:00")
          time_to := some (date ++ "T17:00")
          weather_sensitive := true
          risk_note := some "Have a backup plan ready" }]
      overall_risk :=
        if risk_level != RiskLevel.CRITICAL then RiskLevel.LOW else RiskLevel.MEDIUM
      risk_explanation := "Taking precautions reduces risk"
      recommended := risk_level != RiskLevel.LOW }
  { original_request := user_request
    extracted_location := some location
    start_date := some date
    end_date := some date
    task_feasibility :=
      { feasible := true
        reason := "Fallback mode — feasibility not evaluated"
        suggestion := none }
    weather_relevance := some weather_relevance
    weather_data := weather_data
    plan_a := some plan_a
    plan_b := some plan_b
    decision_trace := [
      { decision := "Used fallback planning"
        reasoning := "LLM agent unavailable, using rule-based planning"
        data_used := none }]
    generated_at := gen_time
    agent_confidence := mkRat 3 10 }

/-! ## Spec-side definitions and small accessors used by the theorems -/

/-- The Plan B risk the spec demands (C5's words): exactly one level below
the unmitigated risk, except that `CRITICAL` is downgraded only to
`MEDIUM`. -/
def planBRiskPerSpec : RiskLevel → RiskLevel
  | .LOW => .LOW
  | .MEDIUM => .LOW
  | .HIGH => .MEDIUM
  | .CRITICAL => .MEDIUM

/-- Overall risk of an optional plan. -/
def planRisk (p : Option PlanOption) : Option RiskLevel :=
  p.map PlanOption.overall_risk

/-- Recommended flag of an optional plan. -/
def planRecommended (p : Option PlanOption) : Option Bool :=
  p.map PlanOption.recommended

/-- Feasibility flag of an orchestrator outcome (`none` on the error arm). -/
def resultFeasible : ChronosResponse ⊕ AgentError → Option Bool
  | .inl r => some r.task_feasibility.feasible
  | .inr _ => none

/-- Plan A of an orchestrator outcome (`none` on the error arm). -/
def resultPlanA : ChronosResponse ⊕ AgentError → Option (Option PlanOption)
  | .inl r => some r.plan_a
  | .inr _ => none

/-- Weather-relevance flag of an orchestrator outcome. -/
def resultRelevant : ChronosResponse ⊕ AgentError → Option (Option Bool)
  | .inl r => some (r.weather_relevance.map WeatherRelevance.is_relevant)
  | .inr _ => none

/-- The spec-side pairing condition on a step's timestamps (C6's words):
`time_from` and `time_to` are both null or both present. -/
def stepTimesPaired (s : TaskStep) : Bool :=
  s.time_from.isSome == s.time_to.isSome

/-- Replace a step's timestamps (used to show validation ignores them). -/
def setStepTimes (s : TaskStep) (f t : Option String) : TaskStep :=
  { s with time_from := f, time_to := t }

/-! ## Concrete data for counterexamples and witnesses -/

/-- A concrete `random`-module implementation: every draw returns the lower
bound and leaves the state unchanged. -/
def cRng : PyRandom :=
  { seedState := fun n => n
    choicesIdx := fun s => (0, s)
    uniform := fun a _ s => (a, s)
    randint := fun a _ s => (a, s) }

/-- A concrete process hash function. -/
def cHash : String → ℕ := fun _ => 0

/-- Concrete low-precipitation observation for the monotonicity witness. -/
def cw1 : WeatherCondition :=
  { temperature_celsius := 20, condition := "sunny", precipitation_chance := 10
    wind_speed_kmh := 0, humidity_percent := 50, forecast_date := "2026-02-08"
    location := "Vadodara", is_simulated := false }

/-- `cw1` with precipitation raised to 85, all other fields unchanged. -/
def cw2 : WeatherCondition :=
  { cw1 with precipitation_chance := 85 }

/-- Concrete HIGH-risk observation for the C5 counterexample
(precipitation 85 → +40 points, wind 0, condition "sunny" → HIGH). -/
def c5Weather : WeatherCondition :=
  { temperature_celsius := 20, condition := "sunny", precipitation_chance := 85
    wind_speed_kmh := 0, humidity_percent := 50, forecast_date := "2026-02-08"
    location := "Vadodara", is_simulated := true }

/-- The fallback response built on `c5Weather`. -/
def c5Fallback : ChronosResponse :=
  generate_fallback_response "Plan a picnic" "Vadodara" "2026-02-08" (some c5Weather) "t0"

/-- A payload whose single step has `time_from` set but `time_to` null,
with the timestamp far outside the request's date range. -/
def c6Payload : ChronosResponse :=
  { original_request := "Plan a hike"
    task_feasibility := { feasible := true, reason := "ok", suggestion := none }
    plan_a := some
      { name := "Original Plan"
        summary := "Hike at dawn"
        steps := [{ order := 1, description := "Hike"
                    time_from := some "2030-01-01T09:00", time_to := none
                    weather_sensitive := true }]
        overall_risk := RiskLevel.LOW
        risk_explanation := "clear skies"
        recommended := true }
    agent_confidence := 1 }

/-- A collaborator payload declaring the request infeasible while still
carrying a non-null Plan A (it passes every pydantic field constraint). -/
def c1Payload : ChronosResponse :=
  { original_request := "Plan a beach day"
    task_feasibility :=
      { feasible := false
        reason := "No beach near Vadodara"
        suggestion := some "Try Goa instead" }
    plan_a := some
      { name := "Original Plan"
        summary := "Go anyway"
        steps := [{ order := 1, description := "Go to the beach", weather_sensitive := true }]
        overall_risk := RiskLevel.LOW
        risk_explanation := "fine"
        recommended := false }
    agent_confidence := mkRat 1 2 }

/-- The orchestrator's enrichment of `c1Payload` for the witness run
(an indoor request: the pipeline skips the weather lookup). -/
def c1Enriched : ChronosResponse :=
  { c1Payload with
      extracted_location := some "Vadodara"
      start_date := some "2026-02-08"
      end_date := some "2026-02-08"
      weather_relevance := some (chronos_weather_relevance "schedule a team meeting")
      weather_data := none
      decision_trace :=
        chronos_pipeline_trace cRng cHash none 0 [] 0
          "schedule a team meeting" "Vadodara" "2026-02-08" false
          ++ c1Payload.decision_trace
      location_used := some "Vadodara"
      location_confidence := 1 }

/-- A well-formed feasible payload for the C2 witness. -/
def c2Payload : ChronosResponse :=
  { original_request := "schedule a team meeting"
    task_feasibility := { feasible := true, reason := "ok", suggestion := none }
    decision_trace := [{ decision := "agent step", reasoning := "because", data_used := none }]
    generated_at := "t1"
    agent_confidence := mkRat 1 2 }

/-- The orchestrator's enrichment of `c2Payload` for the witness run. -/
def c2Enriched : ChronosResponse :=
  { c2Payload with
      extracted_location := some "Paris"
      start_date := some "2026-02-08"
      end_date := some "2026-02-09"
      weather_relevance := some (chronos_weather_relevance "schedule a team meeting")
      weather_data := none
      decision_trace :=
        chronos_pipeline_trace cRng cHash none 0 [] 0
          "schedule a team meeting" "Paris" "2026-02-08" false
          ++ c2Payload.decision_trace
      location_used := some "Paris"
      location_confidence := 1 }

/-! ## Shared lemmas on the risk scorer -/

/-- The source's accumulator-style risk computation equals the spec's
additive decomposition. -/
theorem calc_risk_eq_spec (w : WeatherCondition) :
    calculate_weather_risk w = calculate_weather_risk_spec w := by
  simp only [calculate_weather_risk, calculate_weather_risk_spec, riskOfScoreSpec,
    precipPointsSpec, windPointsSpec, condPointsSpec, Nat.zero_add]

/-- The precipitation factor score is monotone. -/
theorem precipPointsSpec_mono {p q : ℕ} (h : p ≤ q) :
    precipPointsSpec p ≤ precipPointsSpec q := by
  unfold precipPointsSpec
  split_ifs <;> omega

/-- The final score-to-level mapping is monotone in severity index. -/
theorem riskOfScoreSpec_mono {s t : ℕ} (h : s ≤ t) :
    riskIdx (riskOfScoreSpec s) ≤ riskIdx (riskOfScoreSpec t) := by
  unfold riskOfScoreSpec
  split_ifs <;> simp only [riskIdx] <;> omega

/-- C7: the risk level equals the additive reference scoring
(precipitation ≥80→+40, ≥60→+30, ≥40→+20, ≥20→+10; wind ≥40→+20, ≥25→+10,
≥15→+5; severe condition→+40, else rain→+15, else snow→+20; total ≥60 →
CRITICAL, ≥40 → HIGH, ≥20 → MEDIUM, else LOW); in particular
{precipitation=85, wind=10, condition="thunderstorms"} scores 80 and maps
to CRITICAL, and {precipitation=15, wind=5, condition="sunny"} scores 0
and maps to LOW. -/
theorem risk_scoring_matches_reference :
    (∀ w, calculate_weather_risk w = calculate_weather_risk_spec w) ∧
    precipPointsSpec 85 + windPointsSpec 10 + condPointsSpec "thunderstorms" = 80 ∧
    calculate_weather_risk
      { temperature_celsius := 20, condition := "thunderstorms", precipitation_chance := 85
        wind_speed_kmh := 10, humidity_percent := 50, forecast_date := "2026-02-08"
        location := "Miami", is_simulated := false } = RiskLevel.CRITICAL ∧
    precipPointsSpec 15 + windPointsSpec 5 + condPointsSpec "sunny" = 0 ∧
    calculate_weather_risk
      { temperature_celsius := 20, condition := "sunny", precipitation_chance := 15
        wind_speed_kmh := 5, humidity_percent := 50, forecast_date := "2026-02-08"
        location := "Miami", is_simulated := false } = RiskLevel.LOW :=
  ⟨calc_risk_eq_spec, by decide, by decide, by decide, by decide⟩

/-- C8: the risk scorer is monotone in precipitation — two observations
agreeing on every other field compare by precipitation, in the
LOW < MEDIUM < HIGH < CRITICAL order. -/
theorem risk_monotone_in_precipitation (w1 w2 : WeatherCondition)
    (ht : w1.temperature_celsius = w2.temperature_celsius)
    (hc : w1.condition = w2.condition)
    (hw : w1.wind_speed_kmh = w2.wind_speed_kmh)
    (hh : w1.humidity_percent = w2.humidity_percent)
    (hf : w1.forecast_date = w2.forecast_date)
    (hl : w1.location = w2.location)
    (hs : w1.is_simulated = w2.is_simulated)
    (hp : w1.precipitation_chance ≤ w2.precipitation_chance) :
    riskIdx (calculate_weather_risk w1) ≤ riskIdx (calculate_weather_risk w2) := by
  rw [calc_risk_eq_spec, calc_risk_eq_spec]
  unfold calculate_weather_risk_spec
  rw [hc, hw]
  exact riskOfScoreSpec_mono
    (Nat.add_le_add_right (Nat.add_le_add_right (precipPointsSpec_mono hp) _) _)

/-- Witness for C8 at a concrete pair of observations. -/
theorem risk_monotone_in_precipitation_witness :
    cw1.precipitation_chance ≤ cw2.precipitation_chance ∧
    riskIdx (calculate_weather_risk cw1) ≤ riskIdx (calculate_weather_risk cw2) :=
  ⟨by decide,
   risk_monotone_in_precipitation cw1 cw2 rfl rfl rfl rfl rfl rfl rfl (by decide)⟩

/-- C9: simulated weather is deterministic per (location, date) key within
one process — the observation synthesized by `generate_simulated_weather`
does not depend on the incoming global `random` state, because the
function re-seeds from the key's hash before drawing; so two calls that
both take the simulation path for the same pair (for the same process
hash, e.g. with the cache cleared between them) return field-for-field
equal observations. -/
theorem simulated_weather_deterministic (rng : PyRandom) (hashF : String → ℕ)
    (location date : String) (s1 s2 : ℕ) :
    (generate_simulated_weather rng hashF location date s1).1
      = (generate_simulated_weather rng hashF location date s2).1 := rfl

/-- C10: the fallback planner always reports the request feasible, with
the fixed reason "Fallback mode — feasibility not evaluated" and a null
suggestion, regardless of the request, location, date or weather. -/
theorem fallback_always_reports_feasible (user_request location date : String)
    (weather_data : Option WeatherCondition) (gen_time : String) :
    (generate_fallback_response user_request location date weather_data gen_time).task_feasibility
      = { feasible := true
          reason := "Fallback mode — feasibility not evaluated"
          suggestion := none } := rfl

/-- C5 counterexample: with an unmitigated risk of HIGH the claim demands
Plan B risk MEDIUM (one level lower), but the fallback planner assigns
LOW. -/
theorem fallback_plan_b_not_one_level_lower :
    planRisk c5Fallback.plan_a = some RiskLevel.HIGH ∧
    planRisk c5Fallback.plan_b = some RiskLevel.LOW ∧
    planBRiskPerSpec RiskLevel.HIGH = RiskLevel.MEDIUM ∧
    RiskLevel.LOW ≠ RiskLevel.MEDIUM := by decide

/-- C5 amended: the fallback planner's Plan B carries risk LOW whenever
the unmitigated risk (Plan A's risk) is not CRITICAL, and MEDIUM when it
is CRITICAL (never LOW); exactly one of the two plans is recommended —
Plan A if and only if its own risk is LOW, otherwise Plan B. -/
theorem fallback_plan_b_risk_and_recommendation
    (user_request location date : String)
    (weather_data : Option WeatherCondition) (gen_time : String) :
    planRisk (generate_fallback_response user_request location date weather_data gen_time).plan_a
        = some (fallback_risk weather_data) ∧
    planRisk (generate_fallback_response user_request location date weather_data gen_time).plan_b
        = some (if fallback_risk weather_data = RiskLevel.CRITICAL
                then RiskLevel.MEDIUM else RiskLevel.LOW) ∧
    planRecommended (generate_fallback_response user_request location date weather_data gen_time).plan_a
        = some (fallback_risk weather_data == RiskLevel.LOW) ∧
    planRecommended (generate_fallback_response user_request location date weather_data gen_time).plan_b
        = some (!(fallback_risk weather_data == RiskLevel.LOW)) := by
  cases h : fallback_risk weather_data <;>
    simp [generate_fallback_response, planRisk, planRecommended, h] <;> decide

/-- C4 counterexample: with today a Saturday (day 5, weekday 5 in the
Monday-0 convention) and a "weekend" text, the resolver returns today's
own date, not the Saturday seven days ahead demanded by the claim. -/
theorem weekend_on_saturday_returns_today :
    (5 : ℕ) % 7 = 5 ∧
    parse_relative_date "plan for the weekend" 5 = some (ParsedDate.onDay 5) ∧
    some (ParsedDate.onDay 5) ≠ some (ParsedDate.onDay (5 + 7)) := by decide

/-- C4 amended: for a text containing "weekend" and neither "today" nor
"tomorrow", the resolver returns today plus `(5 - weekday) mod 7` days —
the next Saturday strictly after today whenever today is not Saturday,
but today itself when today is a Saturday (the source's roll-forward
guard also requires `weekday != 5` and is therefore never taken). -/
theorem weekend_resolves_to_saturday (text : String) (today : ℕ)
    (hw : containsSub "weekend" (strToLower text) = true)
    (h1 : containsSub "today" (strToLower text) = false)
    (h2 : containsSub "tomorrow" (strToLower text) = false) :
    parse_relative_date text today
        = some (ParsedDate.onDay (today + (5 + 7 - today % 7) % 7)) ∧
    (today + (5 + 7 - today % 7) % 7) % 7 = 5 ∧
    (today % 7 = 5 → today + (5 + 7 - today % 7) % 7 = today) ∧
    (today % 7 ≠ 5 → today < today + (5 + 7 - today % 7) % 7) := by
  have hg : ¬((5 + 7 - today % 7) % 7 = 0 ∧ today % 7 ≠ 5) := by omega
  refine ⟨?_, by omega, by omega, by omega⟩
  simp only [parse_relative_date, h1, h2, hw, Bool.false_eq_true, if_false,
    Bool.or_true, if_true, hg, Bool.true_eq_false]

/-- Witness for the amended C4 on a Thursday (day 3). -/
theorem weekend_resolves_to_saturday_witness :
    containsSub "weekend" (strToLower "plan a picnic this weekend") = true ∧
    containsSub "today" (strToLower "plan a picnic this weekend") = false ∧
    containsSub "tomorrow" (strToLower "plan a picnic this weekend") = false ∧
    (parse_relative_date "plan a picnic this weekend" 3
        = some (ParsedDate.onDay (3 + (5 + 7 - 3 % 7) % 7)) ∧
      (3 + (5 + 7 - 3 % 7) % 7) % 7 = 5 ∧
      (3 % 7 = 5 → 3 + (5 + 7 - 3 % 7) % 7 = 3) ∧
      (3 % 7 ≠ 5 → 3 < 3 + (5 + 7 - 3 % 7) % 7)) :=
  ⟨by decide, by decide, by decide,
   weekend_resolves_to_saturday "plan a picnic this weekend" 3
     (by decide) (by decide) (by decide)⟩

/-- C6 counterexample: schema validation accepts a payload whose step has
exactly one of `time_from`/`time_to` null (and a timestamp that could not
lie in any requested date range), so validation does not fail on these
conditions. -/
theorem validation_accepts_unpaired_times :
    model_validate c6Payload = Except.ok c6Payload ∧
    (c6Payload.plan_a.map fun p => p.steps.map stepTimesPaired) = some [false] :=
  ⟨rfl, by decide⟩

/-- C6 amended: pydantic validation of a `TaskStep` checks only the
declared field constraint `order ≥ 1` and is therefore invariant under any
replacement of the step's `time_from`/`time_to` — payloads with unpaired
or out-of-range timestamps are accepted whenever the rest validates. -/
theorem validation_ignores_step_times (s : TaskStep) (f t : Option String) :
    validTaskStep (setStepTimes s f t) = validTaskStep s := rfl

/-- C3: `get_weather` is a total function into `WeatherCondition` (the
Lean embedding returns an observation for every cache, clock, RNG and
live-source behaviour, mirroring the source's never-raise contract), and
whenever the live-fetch attempt fails (`fetch_weather_from_api` returns
`None`) on a cache miss with simulation not requested, the returned
observation is the synthesized one with `is_simulated` forced to true. -/
theorem get_weather_api_failure_forces_simulated (rng : PyRandom) (hashF : String → ℕ)
    (now : ℚ) (cache : WeatherCache) (rs : ℕ) (location date : String)
    (hmiss : (_get_cached_weather cache now location date).1 = none) :
    (get_weather rng hashF none now cache rs location date false).1
        = { (generate_simulated_weather rng hashF location date rs).1
              with is_simulated := true } ∧
    (get_weather rng hashF none now cache rs location date false).1.is_simulated = true := by
  rcases hx : _get_cached_weather cache now location date with ⟨o, c2⟩
  rw [hx] at hmiss
  simp only at hmiss
  subst hmiss
  exact ⟨by simp [get_weather, hx], by simp [get_weather, hx]⟩

/-- Witness for C3 on an empty cache. -/
theorem get_weather_api_failure_forces_simulated_witness :
    (_get_cached_weather [] 0 "Vadodara" "2026-02-08").1 = none ∧
    ((get_weather cRng cHash none 0 [] 0 "Vadodara" "2026-02-08" false).1
        = { (generate_simulated_weather cRng cHash "Vadodara" "2026-02-08" 0).1
              with is_simulated := true } ∧
      (get_weather cRng cHash none 0 [] 0 "Vadodara" "2026-02-08" false).1.is_simulated = true) :=
  ⟨rfl, get_weather_api_failure_forces_simulated cRng cHash 0 [] 0 "Vadodara" "2026-02-08" rfl⟩

/-- C1 counterexample: the orchestrator returns the infeasible payload
with its non-null Plan A intact (a `ChronosResponse`, not a validation
failure), and the returned `weather_relevance.is_relevant` is the
pipeline's own classification (true for a beach request), not false. -/
theorem infeasible_payload_returned_as_is :
    c1Payload.task_feasibility.feasible = false ∧
    c1Payload.plan_a ≠ none ∧
    resultFeasible (run_chronos cRng cHash none 0 [] 0 (CollabBehaviour.payload c1Payload)
        "Plan a beach day" "Vadodara" "2026-02-08" "2026-02-08" true).1 = some false ∧
    resultPlanA (run_chronos cRng cHash none 0 [] 0 (CollabBehaviour.payload c1Payload)
        "Plan a beach day" "Vadodara" "2026-02-08" "2026-02-08" true).1 = some c1Payload.plan_a ∧
    resultRelevant (run_chronos cRng cHash none 0 [] 0 (CollabBehaviour.payload c1Payload)
        "Plan a beach day" "Vadodara" "2026-02-08" "2026-02-08" true).1 = some (some true) := by
  decide

/-- C1 amended: the orchestrator applies only pydantic structural
validation, which never inspects the INFEASIBLE invariant; any payload
with `feasible == false` that passes the structural checks is returned
as-is — plans and feasibility verdict unchanged — and `weather_relevance`
is overwritten with the pipeline's own classification regardless of
feasibility. -/
theorem orchestrator_passes_through_infeasible_plans
    (rng : PyRandom) (hashF : String → ℕ) (api_result : Option WeatherCondition)
    (now : ℚ) (cache : WeatherCache) (rs : ℕ) (p : ChronosResponse)
    (user_request location start_date end_date : String) (simulation_mode : Bool)
    (hvalid : validChronosResponse p = true)
    (hinf : p.task_feasibility.feasible = false) :
    ∀ r, (run_chronos rng hashF api_result now cache rs (CollabBehaviour.payload p)
        user_request location start_date end_date simulation_mode).1 = Sum.inl r →
      r.plan_a = p.plan_a ∧ r.plan_b = p.plan_b ∧
      r.task_feasibility = p.task_feasibility ∧
      r.task_feasibility.feasible = false ∧
      r.weather_relevance = some (chronos_weather_relevance user_request) := by
  intro r hr
  unfold run_chronos at hr
  simp only [model_validate, hvalid, if_true, Sum.inl.injEq] at hr
  subst hr
  exact ⟨rfl, rfl, rfl, hinf, rfl⟩

/-- Witness for the amended C1 on a concrete run. -/
theorem orchestrator_passes_through_infeasible_plans_witness :
    validChronosResponse c1Payload = true ∧
    c1Payload.task_feasibility.feasible = false ∧
    (c1Enriched.plan_a = c1Payload.plan_a ∧ c1Enriched.plan_b = c1Payload.plan_b ∧
      c1Enriched.task_feasibility = c1Payload.task_feasibility ∧
      c1Enriched.task_feasibility.feasible = false ∧
      c1Enriched.weather_relevance = some (chronos_weather_relevance "schedule a team meeting")) :=
  ⟨by decide, by decide,
   orchestrator_passes_through_infeasible_plans cRng cHash none 0 [] 0 c1Payload
     "schedule a team meeting" "Vadodara" "2026-02-08" "2026-02-08" false
     (by decide) (by decide) c1Enriched (by decide)⟩

/-- C2: `run_chronos` is a total function into the tagged union
`ChronosResponse ⊕ AgentError` for every input and every collaborator /
weather-source behaviour (the Lean embedding returns a value in all
cases, mirroring the source's catch-all `except`), and whenever it
succeeds the result carries the pipeline's authoritative fields:
`location_used` is the trimmed input location, `location_confidence` is
1.0, and the pipeline's own decision records precede the collaborator's
reported ones. -/
theorem run_chronos_total_and_enrichment
    (rng : PyRandom) (hashF : String → ℕ) (api_result : Option WeatherCondition)
    (now : ℚ) (cache : WeatherCache) (rs : ℕ) (collab : CollabBehaviour)
    (user_request location start_date end_date : String) (simulation_mode : Bool) :
    ∀ r, (run_chronos rng hashF api_result now cache rs collab
        user_request location start_date end_date simulation_mode).1 = Sum.inl r →
      r.location_used = some (pyStrip location) ∧
      r.location_confidence = 1 ∧
      ∀ p, collab = CollabBehaviour.payload p →
        r.decision_trace =
          chronos_pipeline_trace rng hashF api_result now cache rs
            user_request (pyStrip location) start_date simulation_mode
            ++ p.decision_trace := by
  intro r hr
  unfold run_chronos at hr
  cases collab with
  | raises ename emsg =>
    exact absurd hr (by simp)
  | payload p =>
    by_cases hv : validChronosResponse p
    · simp only [model_validate, hv, if_true, Sum.inl.injEq] at hr
      subst hr
      refine ⟨rfl, rfl, ?_⟩
      intro q hq
      cases hq
      rfl
    · simp only [model_validate, hv, if_false, Bool.false_eq_true] at hr
      exact absurd hr (by simp)

/-- Witness for C2 on a concrete successful run. -/
theorem run_chronos_total_and_enrichment_witness :
    c2Enriched.location_used = some (pyStrip " Paris ") ∧
    c2Enriched.location_confidence = 1 ∧
    c2Enriched.decision_trace =
      chronos_pipeline_trace cRng cHash none 0 [] 0
        "schedule a team meeting" (pyStrip " Paris ") "2026-02-08" false
        ++ c2Payload.decision_trace := by
  have h := run_chronos_total_and_enrichment cRng cHash none 0 [] 0
    (CollabBehaviour.payload c2Payload)
    "schedule a team meeting" " Paris " "2026-02-08" "2026-02-09" false
    c2Enriched (by decide)
  exact ⟨h.1, h.2.1, h.2.2 c2Payload rfl⟩

end Chronos
